import Mathlib

/-!
Verification of the Shorty URL-shortener core against its specification.

Strings from the TypeScript source are modelled as `List Char`; JavaScript
`Date` values are modelled by their epoch-millisecond integer; asynchronous
store calls and random number generation are modelled by explicit oracle
functions passed to the embedded operations.  Fallible store calls are
modelled with `Except`.
-/

/-- Coerce a Lean string literal to the `List Char` representation used
throughout this development. -/
def lc (s : String) : List Char := s.data

/-- Lowercase every character (models `String.prototype.toLowerCase` on the
ASCII range, which is all the source compares against). -/
def toLowerL (l : List Char) : List Char := l.map Char.toLower

/-- Test whether `pat` is a prefix of `l` (models `String.prototype.startsWith`
and anchored regexes such as `^127\.`). -/
def startsWithL : List Char → List Char → Bool
  | [], _ => true
  | _ :: _, [] => false
  | p :: ps, x :: xs => p = x && startsWithL ps xs

/-- Test whether `sub` occurs as a contiguous substring of `l` (models
`String.prototype.includes`). -/
def containsSub : List Char → List Char → Bool
  | [], sub => sub.isEmpty
  | c :: cs, sub => startsWithL sub (c :: cs) || containsSub cs sub

/-- Test whether the last character of `l` is `c` (models
`String.prototype.endsWith` for a one-character suffix). -/
def endsWithL (c : Char) (l : List Char) : Bool :=
  match l.getLast? with
  | some x => x = c
  | none => false

/-- Remove leading and trailing whitespace (models `String.prototype.trim`). -/
def trimL (l : List Char) : List Char :=
  ((l.dropWhile Char.isWhitespace).reverse.dropWhile Char.isWhitespace).reverse

/-- Decimal digit list of a natural number (models JS number-to-string
interpolation of a non-negative integer). -/
def natStr (n : Nat) : List Char := (Nat.repr n).data

/-- Numeric value of a list of decimal digits (models `Number` coercion of an
all-digit string). -/
def digitsToNat (l : List Char) : Nat :=
  l.foldl (fun acc c => acc * 10 + (c.toNat - 48)) 0

/-! ## Base62 codec (src: slugGenerator, `numberToBase62` / `base62ToNumber`) -/

/-- The fixed 62-character alphabet `BASE62_CHARS`. -/
def BASE62_LIST : List Char :=
  lc "abcdefghijklmnopqrstuvwxyzABCDEFGHIJKLMNOPQRSTUVWXYZ0123456789"

/-- Character of the alphabet at index `i` (models `charset[i]`; the default
is irrelevant because every use is in range). -/
def b62Char (i : Nat) : Char := BASE62_LIST.getD i 'a'

/-- Index of a character in a character list, mirroring
`String.prototype.indexOf`; `none` models the `-1` result. -/
def idxOf : List Char → Char → Option Nat
  | [], _ => none
  | x :: xs, c => if x = c then some 0 else (idxOf xs c).map (· + 1)

/-- Loop body of `numberToBase62`: repeatedly prepend `charset[num % 62]` and
divide `num` by the base until it reaches zero. -/
def numberToBase62Loop (num : Nat) (result : List Char) : List Char :=
  if h : num = 0 then result
  else numberToBase62Loop (num / 62) (b62Char (num % 62) :: result)
termination_by num
decreasing_by exact Nat.div_lt_self (Nat.pos_of_ne_zero h) (by decide)

/-- Base62 encoding of a non-negative integer with the default alphabet
(source function `numberToBase62`; `0` encodes to the first alphabet
character). -/
def numberToBase62 (num : Nat) : List Char :=
  if num = 0 then [b62Char 0] else numberToBase62Loop num []

/-- Fold of `base62ToNumber`: accumulate `result * 62 + charIndex`, failing on
the first character outside the alphabet (models the thrown `Error`). -/
def base62ToNumberGo (r : Nat) : List Char → Except (List Char) Nat
  | [] => Except.ok r
  | c :: cs =>
    match idxOf BASE62_LIST c with
    | none => Except.error (lc "Invalid character in Base62 string: " ++ [c])
    | some i => base62ToNumberGo (r * 62 + i) cs

/-- Base62 decoding with the default alphabet (source function
`base62ToNumber`). -/
def base62ToNumber (l : List Char) : Except (List Char) Nat :=
  base62ToNumberGo 0 l

lemma b62_idx : ∀ i < 62, idxOf BASE62_LIST (b62Char i) = some i := by decide

lemma base62ToNumberGo_append (l1 l2 : List Char) (r : Nat) :
    base62ToNumberGo r (l1 ++ l2) =
      match base62ToNumberGo r l1 with
      | Except.ok r2 => base62ToNumberGo r2 l2
      | Except.error e => Except.error e := by
  induction l1 generalizing r with
  | nil => simp [base62ToNumberGo]
  | cons c cs ih =>
    simp only [List.cons_append, base62ToNumberGo]
    cases idxOf BASE62_LIST c with
    | none => rfl
    | some i => exact ih (r * 62 + i)

lemma numberToBase62Loop_acc (num : Nat) :
    ∀ acc, numberToBase62Loop num acc = numberToBase62Loop num [] ++ acc := by
  induction num using Nat.strong_induction_on with
  | _ n ih =>
    intro acc
    by_cases h : n = 0
    · subst h
      simp [numberToBase62Loop]
    · have hlt : n / 62 < n := Nat.div_lt_self (Nat.pos_of_ne_zero h) (by decide)
      conv_lhs => rw [numberToBase62Loop]
      conv_rhs => rw [numberToBase62Loop]
      simp only [h, dite_false]
      rw [ih (n / 62) hlt (b62Char (n % 62) :: acc),
          ih (n / 62) hlt [b62Char (n % 62)]]
      simp

lemma decode_encode_loop (num : Nat) :
    base62ToNumberGo 0 (numberToBase62Loop num []) = Except.ok num := by
  induction num using Nat.strong_induction_on with
  | _ n ih =>
    by_cases h : n = 0
    · subst h
      simp [numberToBase62Loop, base62ToNumberGo]
    · have hlt : n / 62 < n := Nat.div_lt_self (Nat.pos_of_ne_zero h) (by decide)
      conv_lhs => rw [numberToBase62Loop]
      simp only [h, dite_false]
      rw [numberToBase62Loop_acc (n / 62) [b62Char (n % 62)],
          base62ToNumberGo_append, ih (n / 62) hlt]
      simp only [base62ToNumberGo, b62_idx (n % 62) (Nat.mod_lt n (by decide))]
      congr 1
      omega

/-! ## Slug generator (src: slugGenerator) -/

/-- Fully-resolved slug configuration (source `Required<SlugConfig>`). -/
structure SlugCfg where
  length : Nat
  maxRetries : Nat
  minLength : Nat
  maxLength : Nat
  excludeChars : List Char
  customChars : List Char
deriving DecidableEq

/-- The source `DEFAULT_CONFIG` for slug generation. -/
def DEFAULT_SLUG_CONFIG : SlugCfg :=
  ⟨6, 10, 4, 16, [], BASE62_LIST⟩

/-- Result record of `generateSlug` (source `SlugResult`). -/
structure SlugResult where
  success : Bool
  slug : Option (List Char)
  attempts : Nat
  error : Option (List Char)
deriving DecidableEq

/-- Format validity of a slug (source `isValidSlugFormat`): length within
bounds, every character in the configured charset, no excluded character
present. -/
def isValidSlugFormat (slug : List Char) (cfg : SlugCfg) : Bool :=
  if slug.length < cfg.minLength || cfg.maxLength < slug.length then false
  else if !(slug.all fun c => cfg.customChars.contains c) then false
  else if cfg.excludeChars.any fun c => slug.contains c then false
  else true

/-- Blacklist of unsafe words (source `UNSAFE_WORDS`). -/
def UNSAFE_WORDS : List (List Char) :=
  [lc "admin", lc "api", lc "www", lc "mail", lc "ftp", lc "root", lc "test",
   lc "debug", lc "config", lc "login", lc "auth", lc "user", lc "pass",
   lc "sex", lc "fuck", lc "shit", lc "damn", lc "hell", lc "porn"]

/-- Test for the regex `/^\d+$/`: a non-empty all-digit string. -/
def allDigits (slug : List Char) : Bool :=
  !slug.isEmpty && slug.all Char.isDigit

/-- Test for one alternative of the confusable patterns: non-empty and every
character drawn (case-insensitively) from the single repeated letter `c`. -/
def allSameCI (c : Char) (slug : List Char) : Bool :=
  !slug.isEmpty && slug.all fun x => x.toLower = c

/-- Safety check of a slug (source `isSafeSlug`): no blacklisted word as a
substring of the lowercased slug, not all digits, and not matching the
confusable patterns `/^(0+|O+)$/i` and `/^(1+|l+|I+)$/i`. -/
def isSafeSlug (slug : List Char) : Bool :=
  let lower := toLowerL slug
  if UNSAFE_WORDS.any fun w => containsSub lower w then false
  else if allDigits slug then false
  else if allSameCI '0' slug || allSameCI 'o' slug then false
  else if allSameCI '1' slug || allSameCI 'l' slug || allSameCI 'i' slug then
    false
  else true

/-- Candidate slug of a given attempt: the source uses the timestamp-based
generator for the first three attempts and the purely random generator
afterwards.  Both generators depend only on the clock and the random number
generator, modelled here by the oracles `ts` and `rand` mapping the attempt
number and current target length to the produced string. -/
def candAt (ts rand : Nat → Nat → List Char) (attempt len : Nat) : List Char :=
  if attempt ≤ 3 then ts attempt len else rand attempt len

/-- Failure message of `generateSlug` when the retry budget is exhausted. -/
def exhaustMsg (maxRetries : Nat) : List Char :=
  lc "生成短码失败：超过最大重试次数 " ++ natStr maxRetries

/-- Retry loop of `generateSlug`.  `fuel` is the number of remaining loop
iterations (`maxRetries - attempts`), `attempts` the number already made and
`len` the current target length (`finalConfig.length`, which the source
mutates on repeated collision).  The existence checker is modelled as an
oracle of the attempt number and the candidate. -/
def generateSlugAux (cfg : SlugCfg) (ts rand : Nat → Nat → List Char)
    (chk : Option (Nat → List Char → Bool)) :
    Nat → Nat → Nat → SlugResult
  | 0, attempts, _ => ⟨false, none, attempts, some (exhaustMsg cfg.maxRetries)⟩
  | fuel + 1, attempts, len =>
    let a := attempts + 1
    let slug := candAt ts rand a len
    if !isValidSlugFormat slug cfg then
      generateSlugAux cfg ts rand chk fuel a len
    else if !isSafeSlug slug then
      generateSlugAux cfg ts rand chk fuel a len
    else
      match chk with
      | some c =>
        if c a slug then
          generateSlugAux cfg ts rand chk fuel a
            (if cfg.maxRetries / 2 ≤ a then min (len + 1) cfg.maxLength
             else len)
        else ⟨true, some slug, a, none⟩
      | none => ⟨true, some slug, a, none⟩

/-- Main slug-generation function (source `generateSlug`), with time and
randomness supplied by the `ts` and `rand` oracles and the caller-supplied
asynchronous existence checker by `chk`. -/
def generateSlug (cfg : SlugCfg) (ts rand : Nat → Nat → List Char)
    (chk : Option (Nat → List Char → Bool)) : SlugResult :=
  generateSlugAux cfg ts rand chk cfg.maxRetries 0 cfg.length

/-- Variant of the retry loop that follows the claim wording instead of the
source: the target length is incremented only when the attempts so far
strictly exceed half of `maxRetries` (source: `attempts >= floor(maxRetries
/ 2)`).  Used solely to compare the claim against the code. -/
def generateSlugClaimAux (cfg : SlugCfg) (ts rand : Nat → Nat → List Char)
    (chk : Option (Nat → List Char → Bool)) :
    Nat → Nat → Nat → SlugResult
  | 0, attempts, _ => ⟨false, none, attempts, some (exhaustMsg cfg.maxRetries)⟩
  | fuel + 1, attempts, len =>
    let a := attempts + 1
    let slug := candAt ts rand a len
    if !isValidSlugFormat slug cfg then
      generateSlugClaimAux cfg ts rand chk fuel a len
    else if !isSafeSlug slug then
      generateSlugClaimAux cfg ts rand chk fuel a len
    else
      match chk with
      | some c =>
        if c a slug then
          generateSlugClaimAux cfg ts rand chk fuel a
            (if cfg.maxRetries < 2 * a then min (len + 1) cfg.maxLength
             else len)
        else ⟨true, some slug, a, none⟩
      | none => ⟨true, some slug, a, none⟩

/-- Claim-side slug generation: identical to `generateSlug` except for the
length-escalation threshold. -/
def generateSlugClaim (cfg : SlugCfg) (ts rand : Nat → Nat → List Char)
    (chk : Option (Nat → List Char → Bool)) : SlugResult :=
  generateSlugClaimAux cfg ts rand chk cfg.maxRetries 0 cfg.length

/-- Result of `validateCustomSlug`. -/
structure CustomSlugResult where
  isValid : Bool
  slug : Option (List Char)
  errors : List (List Char)
deriving DecidableEq

/-- Join a list of character lists with a separator (models
`Array.prototype.join`). -/
def joinSep (sep : List Char) : List (List Char) → List Char
  | [] => []
  | [x] => x
  | x :: y :: rest => x ++ sep ++ joinSep sep (y :: rest)

/-- Validate and normalize a user-supplied custom slug (source
`validateCustomSlug`): trim, then run the format and safety predicates,
collecting itemized error messages.  The invalid-character scan is against
the fixed Base62 alphabet, as in the source. -/
def validateCustomSlug (customSlug : List Char) (cfg : SlugCfg) :
    CustomSlugResult :=
  if customSlug.isEmpty then ⟨false, none, [lc "短码不能为空"]⟩
  else
    let normalizedSlug := trimL customSlug
    if normalizedSlug.isEmpty then ⟨false, none, [lc "短码不能为空"]⟩
    else
      let formatErrors :=
        if !isValidSlugFormat normalizedSlug cfg then
          (if normalizedSlug.length < cfg.minLength then
            [lc "短码长度不能少于 " ++ natStr cfg.minLength ++ lc " 个字符"]
           else []) ++
          (if cfg.maxLength < normalizedSlug.length then
            [lc "短码长度不能超过 " ++ natStr cfg.maxLength ++ lc " 个字符"]
           else []) ++
          (let invalidChars :=
            normalizedSlug.filter fun c => !(BASE62_LIST.contains c)
           if !invalidChars.isEmpty then
            [lc "短码包含无效字符: " ++
              joinSep (lc ", ") (invalidChars.map fun c => [c])]
           else [])
        else []
      let errors := formatErrors ++
        (if !isSafeSlug normalizedSlug then
          [lc "短码包含敏感词汇或不安全的字符组合"]
         else [])
      if !errors.isEmpty then ⟨false, none, errors⟩
      else ⟨true, some normalizedSlug, []⟩

/-- Insert into the suggestion accumulator, keeping insertion order and
dropping duplicates (models `Set.prototype.add` followed by `Array.from`). -/
def insertUnique (acc : List (List Char)) (s : List Char) : List (List Char) :=
  if acc.contains s then acc else acc ++ [s]

/-- Numeric-suffix loop of `generateSlugSuggestions`: for `i = 1 .. 9`, while
fewer than `count` suggestions exist, add `baseSlug + i` when it is valid and
safe.  `steps` counts down the remaining loop iterations (from 9). -/
def numericSuffixGo (b : List Char) (cfg : SlugCfg) (count : Nat) :
    Nat → Nat → List (List Char) → List (List Char)
  | 0, _, acc => acc
  | steps + 1, i, acc =>
    if i ≤ 9 && acc.length < count then
      let suggestion := b ++ [Nat.digitChar i]
      numericSuffixGo b cfg count steps (i + 1)
        (if isValidSlugFormat suggestion cfg && isSafeSlug suggestion then
          insertUnique acc suggestion
         else acc)
    else acc

/-- Random-suffix while-loop of `generateSlugSuggestions`: while fewer than
`count` suggestions exist, append a random 2-character suffix to the base and
add the result when valid and safe.  The random generator is modelled by the
oracle `rnd2`; `fuel` bounds the modelled iterations and `none` means the
loop is still running when the fuel runs out. -/
def randSuffixLoop (b : List Char) (cfg : SlugCfg) (count : Nat)
    (rnd2 : Nat → Char × Char) :
    Nat → List (List Char) → Option (List (List Char))
  | 0, acc => if count ≤ acc.length then some acc else none
  | fuel + 1, acc =>
    if acc.length < count then
      let p := rnd2 fuel
      let suggestion := b ++ [p.1, p.2]
      randSuffixLoop b cfg count rnd2 fuel
        (if isValidSlugFormat suggestion cfg && isSafeSlug suggestion then
          insertUnique acc suggestion
         else acc)
    else some acc

/-- Final random while-loop of `generateSlugSuggestions`: while fewer than
`count` suggestions exist, generate a random slug of the configured length
(oracle `rndS`) and add it when safe (the source checks only `isSafeSlug`
here). -/
def randomFillLoop (cfg : SlugCfg) (count : Nat) (rndS : Nat → List Char) :
    Nat → List (List Char) → Option (List (List Char))
  | 0, acc => if count ≤ acc.length then some acc else none
  | fuel + 1, acc =>
    if acc.length < count then
      randomFillLoop cfg count rndS fuel
        (if isSafeSlug (rndS fuel) then insertUnique acc (rndS fuel) else acc)
    else some acc

/-- Suggestion-list generation (source `generateSlugSuggestions`): numeric
suffix variants of a valid base slug, then random-suffix variants, then pure
random fallbacks.  Randomness is modelled by the oracles `rnd2` and `rndS`
and the unbounded `while` loops by `fuel`; a `none` result means the call has
not terminated within `fuel` loop iterations. -/
def generateSlugSuggestions (baseSlug : Option (List Char)) (count : Nat)
    (cfg : SlugCfg) (rnd2 : Nat → Char × Char) (rndS : Nat → List Char)
    (fuel : Nat) : Option (List (List Char)) :=
  let withBase : Option (List (List Char)) :=
    match baseSlug with
    | some b =>
      if !b.isEmpty && isValidSlugFormat b cfg then
        let acc1 := numericSuffixGo b cfg count 9 1 []
        randSuffixLoop b cfg count rnd2 fuel acc1
      else some []
    | none => some []
  match withBase with
  | none => none
  | some acc => randomFillLoop cfg count rndS fuel acc

/-! ## URL validator and normalizer (src: src/utils/urlValidator.ts)

The source relies on the platform WHATWG `URL` class.  It is modelled here by
`parseUrl`/`serializeUrl` over a `UrlObj` record, idealized as follows:
percent-encoding, dot-segment removal, IDNA and IPv4 canonicalization are not
modelled, and an authority (`//`) is required after the scheme.  As in the
WHATWG API, the `hostname` of a bracketed IPv6 literal keeps its brackets,
default ports are compared literally, and a special scheme with an empty host
fails to parse. -/

/-- Component record mirroring the WHATWG `URL` object as used by the source:
`scheme` (without colon), `username`, `password`, `host` (the `hostname`
getter, brackets included for IPv6), `port` (digit string, `none` when
absent), `path` (the `pathname` getter), `query` and `fragment` (without
their leading `?` and `#`). -/
structure UrlObj where
  scheme : List Char
  username : List Char
  password : List Char
  host : List Char
  port : Option (List Char)
  path : List Char
  query : Option (List Char)
  fragment : Option (List Char)
deriving DecidableEq

/-- Valid characters of a URL scheme after the first (letters, digits,
`+`, `-`, `.`). -/
def isSchemeChar (c : Char) : Bool :=
  c.isAlphanum || c = '+' || c = '-' || c = '.'

/-- Schemes the WHATWG standard treats as special (authority and non-empty
host required). -/
def SPECIAL_SCHEMES : List (List Char) :=
  [lc "http", lc "https", lc "ftp", lc "ws", lc "wss", lc "file"]

/-- Parse an optional port: empty means no port, otherwise all characters
must be digits (a non-digit port is a parse failure). -/
def parsePort : List Char → Option (Option (List Char))
  | [] => some none
  | ps => if ps.all Char.isDigit then some (some ps) else none

/-- Split an authority without credentials into host and optional port.
Bracketed IPv6 hosts keep their brackets, as the WHATWG `hostname` getter
does. -/
def parseHostPort (hp : List Char) : Option (List Char × Option (List Char)) :=
  match hp with
  | '[' :: rest =>
    let inner := rest.takeWhile fun c => !(c = ']')
    match rest.dropWhile fun c => !(c = ']') with
    | [] => none
    | _ :: tail =>
      let host := '[' :: (inner ++ [']'])
      match tail with
      | [] => some (host, none)
      | ':' :: ps => (parsePort ps).map fun p => (host, p)
      | _ => none
  | _ =>
    let host := hp.takeWhile fun c => !(c = ':')
    match hp.dropWhile fun c => !(c = ':') with
    | [] => some (host, none)
    | _ :: ps => (parsePort ps).map fun p => (host, p)

/-- Parse a URL string into its components (models `new URL(...)`, with
`none` for the thrown `TypeError`). -/
def parseUrl (s : List Char) : Option UrlObj :=
  let schemeRaw := s.takeWhile fun c => !(c = ':')
  match s.dropWhile fun c => !(c = ':') with
  | [] => none
  | _ :: afterColon =>
    match schemeRaw with
    | [] => none
    | c0 :: ctail =>
      if !(c0.isAlpha && ctail.all isSchemeChar) then none
      else
        match afterColon with
        | '/' :: '/' :: rem =>
          let scheme := toLowerL schemeRaw
          let auth := rem.takeWhile fun c => !(c = '/' || c = '?' || c = '#')
          let rest2 := rem.dropWhile fun c => !(c = '/' || c = '?' || c = '#')
          let hasAt := auth.contains '@'
          let hostport :=
            if hasAt then (auth.reverse.takeWhile fun c => !(c = '@')).reverse
            else auth
          let userinfo :=
            if hasAt then
              ((auth.reverse.dropWhile fun c => !(c = '@')).drop 1).reverse
            else []
          let username := userinfo.takeWhile fun c => !(c = ':')
          let password :=
            match userinfo.dropWhile fun c => !(c = ':') with
            | [] => []
            | _ :: p => p
          match parseHostPort hostport with
          | none => none
          | some (hostRaw, port) =>
            let host := toLowerL hostRaw
            if host.isEmpty && SPECIAL_SCHEMES.contains scheme then none
            else
              let beforeHash := rest2.takeWhile fun c => !(c = '#')
              let hashPart := rest2.dropWhile fun c => !(c = '#')
              let path0 := beforeHash.takeWhile fun c => !(c = '?')
              let query :=
                match beforeHash.dropWhile fun c => !(c = '?') with
                | [] => none
                | _ :: q => some q
              let fragment :=
                match hashPart with
                | [] => none
                | _ :: f => some f
              let path :=
                if path0.isEmpty && SPECIAL_SCHEMES.contains scheme then ['/']
                else path0
              some ⟨scheme, username, password, host, port, path, query,
                fragment⟩
        | _ => none

/-- Serialize a `UrlObj` back to a string (models `URL.prototype.toString`). -/
def serializeUrl (o : UrlObj) : List Char :=
  o.scheme ++ lc "://" ++
  (if !o.username.isEmpty || !o.password.isEmpty then
    o.username ++ (if !o.password.isEmpty then ':' :: o.password else []) ++
      ['@']
   else []) ++
  o.host ++
  (match o.port with
   | none => []
   | some p => ':' :: p) ++
  o.path ++
  (match o.query with
   | none => []
   | some q => '?' :: q) ++
  (match o.fragment with
   | none => []
   | some f => '#' :: f)

/-- The `protocol` getter of the URL object (scheme plus colon). -/
def protocolOf (o : UrlObj) : List Char := o.scheme ++ [':']

/-- The `port` getter of the URL object (empty string when absent). -/
def portStr (o : UrlObj) : List Char := (o.port).getD []

/-- Allowed protocols (source `ALLOWED_PROTOCOLS`). -/
def ALLOWED_PROTOCOLS : List (List Char) :=
  [lc "http:", lc "https:", lc "ftp:", lc "ftps:"]

/-- Hostname blacklist (source `DANGEROUS_DOMAINS`). -/
def DANGEROUS_DOMAINS : List (List Char) :=
  [lc "localhost", lc "0.0.0.0", lc "127.0.0.1", lc "::1"]

/-- URL format check (source `isValidUrl`): parses, allowed protocol,
non-empty hostname, length at most 2048. -/
def isValidUrl (url : List Char) : Bool :=
  match parseUrl url with
  | none => false
  | some o =>
    if !(ALLOWED_PROTOCOLS.contains (protocolOf o)) then false
    else if o.host.isEmpty then false
    else if 2048 < url.length then false
    else true

/-- The two-digit alternatives of the regex `^172\.(1[6-9]|2[0-9]|3[01])\.`. -/
def RANGE_172 : List (List Char) := (List.range 16).map fun k => natStr (16 + k)

/-- Private / reserved host test (source `isPrivateIpAddress`): the
`PRIVATE_IP_RANGES` regexes, then reserved and multicast leading octets for a
dotted-quad literal. -/
def isPrivateIpAddress (hostname : List Char) : Bool :=
  if startsWithL (lc "127.") hostname
      || startsWithL (lc "10.") hostname
      || (RANGE_172.any fun d =>
            startsWithL (lc "172." ++ d ++ [ '.' ]) hostname)
      || startsWithL (lc "192.168.") hostname
      || startsWithL (lc "169.254.") hostname
      || hostname = lc "::1"
      || startsWithL (lc "fc00:") hostname
      || startsWithL (lc "fe80:") hostname then true
  else
    let parts := hostname.splitOn '.'
    let ipv4Shape := parts.length = 4 &&
      parts.all fun p => !p.isEmpty && p.length ≤ 3 && p.all Char.isDigit
    if ipv4Shape then
      let p0 := digitsToNat (parts.headD [])
      p0 = 0 || p0 = 255 || (224 ≤ p0 && p0 ≤ 239)
    else false

/-- Dangerous administrative / database ports (source `isDangerousPort`). -/
def isDangerousPort (port : List Char) : Bool :=
  if port.isEmpty then false
  else
    let portNum := digitsToNat (port.takeWhile Char.isDigit)
    [22, 23, 25, 53, 110, 143, 993, 995, 1433, 3306, 5432, 6379].contains
      portNum

/-- URL safety check (source `isSafeUrl`): not a blacklisted hostname, not a
private address, not a dangerous port, no embedded credentials. -/
def isSafeUrl (url : List Char) : Bool :=
  match parseUrl url with
  | none => false
  | some o =>
    let hostname := toLowerL o.host
    if DANGEROUS_DOMAINS.contains hostname then false
    else if isPrivateIpAddress hostname then false
    else if isDangerousPort (portStr o) then false
    else if !o.username.isEmpty || !o.password.isEmpty then false
    else true

/-- Host-lowering, default-port stripping and path fixing applied by
`normalizeUrl` between parsing and serialization. -/
def normFix (o : UrlObj) : UrlObj :=
  let o1 := { o with host := toLowerL o.host }
  let o2 :=
    if (o1.scheme = lc "http" && o1.port = some (lc "80"))
        || (o1.scheme = lc "https" && o1.port = some (lc "443")) then
      { o1 with port := none }
    else o1
  let o3 :=
    if !(o2.path = ['/']) && endsWithL '/' o2.path then
      { o2 with path := o2.path.dropLast }
    else o2
  if o3.path.isEmpty then { o3 with path := ['/'] } else o3

/-- URL normalization (source `normalizeUrl`): trim; prepend `https://` when
no `http(s)://` prefix is present and the string looks like a domain
(contains a dot or `localhost`); lowercase the host; strip default ports;
strip one trailing slash of a non-root path; replace an empty path by `/`.
On any failure the original string is returned unchanged. -/
def normalizeUrl (url : List Char) : List Char :=
  let t := trimL url
  let lower := toLowerL t
  let hasHttpScheme :=
    startsWithL (lc "http://") lower || startsWithL (lc "https://") lower
  let pre : Option (List Char) :=
    if hasHttpScheme then some t
    else if !(t.contains '.' || containsSub lower (lc "localhost"))
        && !(t = lc "localhost") then none
    else some (lc "https://" ++ t)
  match pre with
  | none => url
  | some p =>
    match parseUrl p with
    | none => url
    | some o => serializeUrl (normFix o)

/-- Length check (source `isValidUrlLength`). -/
def isValidUrlLength (url : List Char) (maxLength : Nat) : Bool :=
  url.length ≤ maxLength && 0 < url.length

/-- Options of `validateUrl`, with the source defaults. -/
structure ValidateOptions where
  maxLength : Nat := 2048
  allowUnsafe : Bool := false
  normalize : Bool := true
deriving DecidableEq

/-- Result record of `validateUrl`. -/
structure UrlValidationResult where
  isValid : Bool
  normalizedUrl : Option (List Char)
  errors : List (List Char)
deriving DecidableEq

/-- Composite URL validation (source `validateUrl`): emptiness and length
checks, optional normalization, format check, then safety check unless
`allowUnsafe`. -/
def validateUrl (url : List Char) (opts : ValidateOptions) :
    UrlValidationResult :=
  if url.isEmpty then ⟨false, none, [lc "URL 不能为空"]⟩
  else if !isValidUrlLength url opts.maxLength then
    ⟨false, none,
      [lc "URL 长度不能超过 " ++ natStr opts.maxLength ++ lc " 字符"]⟩
  else
    let normalizedUrl := if opts.normalize then normalizeUrl url else url
    if !isValidUrl normalizedUrl then
      ⟨false, none, [lc "URL 格式无效或协议不受支持"]⟩
    else if !opts.allowUnsafe && !isSafeUrl normalizedUrl then
      ⟨false, none, [lc "URL 不安全：不允许内网地址或危险域名"]⟩
    else ⟨true, some normalizedUrl, []⟩

/-! ## Link service (src: LinkService in services/linkService)

Timestamps are epoch milliseconds (`Int`); the D1 store is modelled by
oracle functions returning `Except Unit` (the `error` case models a thrown
store exception).  `createLink` additionally returns the row it inserted, if
any, so that theorems can observe whether a new row was created. -/

/-- Stored link row (source `Link`). -/
structure Link where
  id : Nat
  original_url : List Char
  short_code : List Char
  created_at : Int
  access_count : Nat
  expires_at : Option Int
deriving DecidableEq

/-- Row data passed to `db.createLink` (source `CreateLinkData`). -/
structure CreateLinkData where
  original_url : List Char
  short_code : List Char
  created_at : Int
  access_count : Nat
  expires_at : Option Int
deriving DecidableEq

/-- Service configuration (source `LinkServiceConfig`, fully resolved). -/
structure LinkConfig where
  baseUrl : List Char
  defaultExpireDays : Nat
  enableCustomSlug : Bool
  enableExpiration : Bool
  maxSlugLength : Nat
  minSlugLength : Nat
  enableRateLimit : Bool
  enableAnalytics : Bool
deriving DecidableEq

/-- The source `DEFAULT_CONFIG` of the link service. -/
def DEFAULT_LINK_CONFIG : LinkConfig :=
  ⟨lc "https://shorty.dev", 365, true, true, 16, 4, true, true⟩

/-- Link payload of the service responses (source response `link` field). -/
structure LinkInfo where
  id : Nat
  originalUrl : List Char
  shortCode : List Char
  shortUrl : List Char
  createdAt : Int
  expiresAt : Option Int
  accessCount : Nat
deriving DecidableEq

/-- Response of `getLink` / `getLinkByShortCodeRaw`. -/
structure GetLinkResponse where
  success : Bool
  link : Option LinkInfo
  error : Option (List Char)
deriving DecidableEq

/-- Response of `createLink`. -/
structure CreateLinkResponse where
  success : Bool
  link : Option LinkInfo
  error : Option (List Char)
  details : Option (List (List Char))
deriving DecidableEq

/-- Request of `createLink` (source `CreateLinkRequest`): `none` models an
absent field and, for strings, the empty string is separately falsy. -/
structure CreateLinkRequest where
  originalUrl : List Char
  customSlug : Option (List Char)
  expiresAt : Option Int
  expireDays : Option Nat
deriving DecidableEq

/-- Expiration test (source private `isExpired`): an absent `expires_at`
never expires, otherwise compare with the current time. -/
def isExpired (now : Int) (link : Link) : Bool :=
  match link.expires_at with
  | none => false
  | some t => t < now

/-- Full short URL (source private `buildShortUrl`). -/
def buildShortUrl (cfg : LinkConfig) (shortCode : List Char) : List Char :=
  cfg.baseUrl ++ ['/'] ++ shortCode

/-- Response payload built from a stored link (the record literal repeated in
the source service methods). -/
def linkToInfo (cfg : LinkConfig) (l : Link) : LinkInfo :=
  ⟨l.id, l.original_url, l.short_code, buildShortUrl cfg l.short_code,
    l.created_at, l.expires_at, l.access_count⟩

/-- Short-code existence check (source private `shortCodeExists`): on a store
error the code is conservatively reported as taken. -/
def shortCodeExists (res : Except Unit (Option Link)) : Bool :=
  match res with
  | Except.error _ => true
  | Except.ok l => l.isSome

/-- Lookup of an existing link by normalized URL (source private
`findExistingLink`): store errors are swallowed to `null`. -/
def findExistingLink (res : Except Unit (Option Link)) : Option Link :=
  match res with
  | Except.error _ => none
  | Except.ok l => l

/-- Lookup by short code with expiry check (source `getLink`).  `dbRes` is
the result of `db.getLinkByShortCode`; on the active path with analytics the
access count of the returned payload is the incremented one. -/
def getLink (cfg : LinkConfig) (now : Int) (dbRes : Except Unit (Option Link))
    (incrementAccess : Bool) : GetLinkResponse :=
  match dbRes with
  | Except.error _ => ⟨false, none, some (lc "服务器内部错误")⟩
  | Except.ok none => ⟨false, none, some (lc "短链接不存在")⟩
  | Except.ok (some linkData) =>
    if isExpired now linkData then ⟨false, none, some (lc "短链接已过期")⟩
    else
      let linkData2 :=
        if incrementAccess && cfg.enableAnalytics then
          { linkData with access_count := linkData.access_count + 1 }
        else linkData
      ⟨true, some (linkToInfo cfg linkData2), none⟩

/-- Raw lookup by short code without the expiry check (source
`getLinkByShortCodeRaw`). -/
def getLinkByShortCodeRaw (cfg : LinkConfig)
    (dbRes : Except Unit (Option Link)) : GetLinkResponse :=
  match dbRes with
  | Except.error _ => ⟨false, none, some (lc "服务器内部错误")⟩
  | Except.ok none => ⟨false, none, some (lc "短链接不存在")⟩
  | Except.ok (some linkData) => ⟨true, some (linkToInfo cfg linkData), none⟩

/-- Store and environment oracles consumed by one `createLink` call:
`findByUrl` models `db.getLinkByUrl`, `codeLookup` the
`db.getLinkByShortCode` calls of the existence checker (indexed by attempt
number, `0` for the single custom-slug check), `ts`/`rand` the slug
generator randomness and `insert` models `db.createLink`. -/
structure CreateEnv where
  now : Int
  findByUrl : List Char → Except Unit (Option Link)
  codeLookup : Nat → List Char → Except Unit (Option Link)
  ts : Nat → Nat → List Char
  rand : Nat → Nat → List Char
  insert : CreateLinkData → Except Unit Link

/-- JS truthiness of the optional `customSlug` field (absent and the empty
string are both falsy). -/
def reqHasCustomSlug (req : CreateLinkRequest) : Bool :=
  match req.customSlug with
  | none => false
  | some s => !s.isEmpty

/-- Expiration timestamp chosen at creation (source step 4): explicit
`expiresAt`, else `expireDays` days from now, else the configured default;
`none` when expiration is disabled.  A calendar day is modelled as
86400000 ms. -/
def computeExpiry (cfg : LinkConfig) (now : Int) (req : CreateLinkRequest) :
    Option Int :=
  if cfg.enableExpiration then
    match req.expiresAt with
    | some t => some t
    | none =>
      match req.expireDays with
      | some d =>
        if d ≠ 0 then some (now + d * 86400000)
        else some (now + cfg.defaultExpireDays * 86400000)
      | none => some (now + cfg.defaultExpireDays * 86400000)
  else none

/-- Link creation (source `createLink`): validate the URL, reuse an existing
non-expired link for the same normalized URL unless a custom slug was
supplied, otherwise settle the short code (validated custom slug or
generated slug) and insert the row.  The second component is the inserted
row, `none` when no insert happened. -/
def createLink (cfg : LinkConfig) (env : CreateEnv)
    (req : CreateLinkRequest) : CreateLinkResponse × Option CreateLinkData :=
  let v := validateUrl req.originalUrl {}
  if !v.isValid then
    (⟨false, none, some (lc "无效的URL"), some v.errors⟩, none)
  else
    let normalizedUrl := v.normalizedUrl.getD []
    let existingLink := findExistingLink (env.findByUrl normalizedUrl)
    let reuse : Option Link :=
      match existingLink with
      | some ex =>
        if !reqHasCustomSlug req && !isExpired env.now ex then some ex
        else none
      | none => none
    match reuse with
    | some ex => (⟨true, some (linkToInfo cfg ex), none, none⟩, none)
    | none =>
      let slugRes : Except CreateLinkResponse (List Char) :=
        if reqHasCustomSlug req && cfg.enableCustomSlug then
          let sv := validateCustomSlug (req.customSlug.getD [])
            { DEFAULT_SLUG_CONFIG with
                minLength := cfg.minSlugLength,
                maxLength := cfg.maxSlugLength }
          if !sv.isValid then
            Except.error ⟨false, none, some (lc "无效的自定义短码"),
              some sv.errors⟩
          else if shortCodeExists (env.codeLookup 0 (sv.slug.getD [])) then
            Except.error ⟨false, none, some (lc "短码已存在"),
              some [lc "自定义短码已被使用，请选择其他短码"]⟩
          else Except.ok (sv.slug.getD [])
        else
          let slugResult := generateSlug
            { length := 6, maxRetries := 10,
              minLength := cfg.minSlugLength, maxLength := cfg.maxSlugLength,
              excludeChars := [], customChars := BASE62_LIST }
            env.ts env.rand
            (some fun a s => shortCodeExists (env.codeLookup a s))
          if slugResult.success then Except.ok (slugResult.slug.getD [])
          else
            Except.error ⟨false, none, some (lc "短码生成失败"),
              some [slugResult.error.getD (lc "无法生成唯一短码")]⟩
      match slugRes with
      | Except.error resp => (resp, none)
      | Except.ok shortCode =>
        let data : CreateLinkData :=
          ⟨normalizedUrl, shortCode, env.now, 0,
            computeExpiry cfg env.now req⟩
        match env.insert data with
        | Except.error _ =>
          (⟨false, none, some (lc "服务器内部错误"),
            some [lc "创建链接时发生未知错误"]⟩, none)
        | Except.ok linkData =>
          (⟨true, some (linkToInfo cfg linkData), none, none⟩, some data)

/-! ## Theorems -/

lemma decode_encode (n : Nat) :
    base62ToNumber (numberToBase62 n) = Except.ok n := by
  by_cases h : n = 0
  · subst h
    rfl
  · simp only [numberToBase62, h, ite_false, base62ToNumber]
    exact decode_encode_loop n

/-- C1: the Base62 codec functions are strict inverses — for every
non-negative integer `n`, decoding the encoding of `n` with the default
62-character alphabet succeeds and returns `n`. -/
theorem base62_roundtrip (n : Nat) :
    base62ToNumber (numberToBase62 n) = Except.ok n :=
  decode_encode n

/-- C10: decoding the empty string succeeds with `0` (no error is raised), so
decoding is not injective on strings — the empty string and `"a"` both decode
to `0` — and encoding the decoding of the empty string yields `"a"`, not the
empty string, even though decode-after-encode is the identity on numbers. -/
theorem base62_decode_empty :
    base62ToNumber [] = Except.ok 0 ∧
    base62ToNumber (lc "a") = Except.ok 0 ∧
    lc "a" ≠ ([] : List Char) ∧
    numberToBase62 0 = lc "a" ∧
    ∀ n : Nat, base62ToNumber (numberToBase62 n) = Except.ok n :=
  ⟨rfl, rfl, by decide, rfl, decode_encode⟩

/-- C2: when the stored link has an `expires_at` in the past, `getLink` fails
with the distinct expired response — different from the not-found response —
while the raw lookup `getLinkByShortCodeRaw` still succeeds and returns the
record including its original URL and expiry date. -/
theorem getLink_expired_distinct (cfg : LinkConfig) (now t : Int) (l : Link)
    (inc inc2 : Bool) (he : l.expires_at = some t) (hlt : t < now) :
    getLink cfg now (Except.ok (some l)) inc =
      ⟨false, none, some (lc "短链接已过期")⟩ ∧
    getLink cfg now (Except.ok none) inc2 =
      ⟨false, none, some (lc "短链接不存在")⟩ ∧
    getLink cfg now (Except.ok (some l)) inc ≠
      getLink cfg now (Except.ok none) inc2 ∧
    getLinkByShortCodeRaw cfg (Except.ok (some l)) =
      ⟨true, some (linkToInfo cfg l), none⟩ := by
  have hexp : isExpired now l = true := by
    simp [isExpired, he, hlt]
  refine ⟨?_, rfl, ?_, rfl⟩
  · simp [getLink, hexp]
  · simp only [getLink, hexp, if_true]
    intro hcontra
    have := congrArg GetLinkResponse.error hcontra
    simp at this
    exact absurd (congrArg String.mk this) (by decide)

/-- Witness for `getLink_expired_distinct` at a concrete expired link. -/
theorem getLink_expired_distinct_witness :
    (⟨1, lc "https://example.com/", lc "abcDEF", 0, 3, some 1000⟩ :
        Link).expires_at = some 1000 ∧ (1000 : Int) < 2000 ∧
    getLink DEFAULT_LINK_CONFIG 2000
        (Except.ok (some ⟨1, lc "https://example.com/", lc "abcDEF", 0, 3,
          some 1000⟩)) false =
      ⟨false, none, some (lc "短链接已过期")⟩ ∧
    getLinkByShortCodeRaw DEFAULT_LINK_CONFIG
        (Except.ok (some ⟨1, lc "https://example.com/", lc "abcDEF", 0, 3,
          some 1000⟩)) =
      ⟨true, some (linkToInfo DEFAULT_LINK_CONFIG
        ⟨1, lc "https://example.com/", lc "abcDEF", 0, 3, some 1000⟩),
        none⟩ := by
  refine ⟨rfl, by decide, ?_, ?_⟩
  · exact (getLink_expired_distinct DEFAULT_LINK_CONFIG 2000 1000 _ false
      false rfl (by decide)).1
  · exact (getLink_expired_distinct DEFAULT_LINK_CONFIG 2000 1000 _ false
      false rfl (by decide)).2.2.2

lemma isValidSlugFormat_spec {s : List Char} {cfg : SlugCfg}
    (h : isValidSlugFormat s cfg = true) :
    cfg.minLength ≤ s.length ∧ s.length ≤ cfg.maxLength ∧
    ∀ c ∈ s, cfg.customChars.contains c = true := by
  unfold isValidSlugFormat at h
  split at h
  · simp at h
  · split at h
    · simp at h
    · split at h
      · simp at h
      · rename_i h1 h2 h3
        simp only [Bool.or_eq_true, decide_eq_true_eq, not_or] at h1
        simp only [Bool.not_eq_true', Bool.not_eq_false] at h2
        rw [List.all_eq_true] at h2
        exact ⟨Nat.le_of_not_lt h1.1, Nat.le_of_not_lt h1.2, h2⟩

lemma isSafeSlug_spec {s : List Char} (h : isSafeSlug s = true) :
    allDigits s = false := by
  cases hda : allDigits s
  · rfl
  · exfalso
    unfold isSafeSlug at h
    split at h
    · simp at h
    · simp [hda] at h

lemma generateSlugAux_success (cfg : SlugCfg) (ts rand : Nat → Nat → List Char)
    (chk : Option (Nat → List Char → Bool)) :
    ∀ fuel attempts len s a e,
      generateSlugAux cfg ts rand chk fuel attempts len =
        ⟨true, some s, a, e⟩ →
      isValidSlugFormat s cfg = true ∧ isSafeSlug s = true := by
  intro fuel
  induction fuel with
  | zero =>
    intro attempts len s a e h
    simp [generateSlugAux] at h
  | succ fuel ih =>
    intro attempts len s a e h
    rw [generateSlugAux.eq_def] at h
    simp only [] at h
    split at h
    · exact ih _ _ _ _ _ h
    · split at h
      · exact ih _ _ _ _ _ h
      · rename_i hv hs
        simp only [Bool.not_eq_true', Bool.not_eq_false] at hv hs
        split at h
        · split at h
          · exact ih _ _ _ _ _ h
          · cases h
            exact ⟨hv, hs⟩
        · cases h
          exact ⟨hv, hs⟩

/-- C3: every slug returned by a successful `generateSlug` call with the
default configuration — whatever the random candidates and the existence
checker do — has length within `[4, 16]`, consists only of Base62 alphabet
characters, satisfies `isSafeSlug`, and is not composed entirely of
digits. -/
theorem generateSlug_default_properties (ts rand : Nat → Nat → List Char)
    (chk : Option (Nat → List Char → Bool)) (s : List Char) (a : Nat)
    (e : Option (List Char))
    (h : generateSlug DEFAULT_SLUG_CONFIG ts rand chk = ⟨true, some s, a, e⟩) :
    4 ≤ s.length ∧ s.length ≤ 16 ∧ (∀ c ∈ s, c ∈ BASE62_LIST) ∧
    isSafeSlug s = true ∧ s.all Char.isDigit = false := by
  have hmain := generateSlugAux_success DEFAULT_SLUG_CONFIG ts rand chk
    DEFAULT_SLUG_CONFIG.maxRetries 0 DEFAULT_SLUG_CONFIG.length s a e h
  obtain ⟨hf, hs⟩ := hmain
  obtain ⟨hmin, hmax, hchars⟩ := isValidSlugFormat_spec hf
  have hdig := isSafeSlug_spec hs
  have hne : ¬s.isEmpty := by
    cases s with
    | nil => simp [DEFAULT_SLUG_CONFIG] at hmin
    | cons c cs => simp
  refine ⟨hmin, hmax, ?_, hs, ?_⟩
  · intro c hc
    have := hchars c hc
    simpa [DEFAULT_SLUG_CONFIG, List.contains, List.elem_eq_mem] using this
  · unfold allDigits at hdig
    simpa [hne] using hdig

/-- Witness for `generateSlug_default_properties` at a concrete oracle for
which generation succeeds on the first attempt. -/
theorem generateSlug_default_properties_witness :
    generateSlug DEFAULT_SLUG_CONFIG (fun _ len => List.replicate len 'a')
        (fun _ len => List.replicate len 'a') none =
      ⟨true, some (List.replicate 6 'a'), 1, none⟩ ∧
    4 ≤ (List.replicate 6 'a').length ∧
    (List.replicate 6 'a').length ≤ 16 ∧
    (∀ c ∈ List.replicate 6 'a', c ∈ BASE62_LIST) ∧
    isSafeSlug (List.replicate 6 'a') = true ∧
    (List.replicate 6 'a').all Char.isDigit = false := by
  have h : generateSlug DEFAULT_SLUG_CONFIG
      (fun _ len => List.replicate len 'a')
      (fun _ len => List.replicate len 'a') none =
      ⟨true, some (List.replicate 6 'a'), 1, none⟩ := by decide
  have hp := generateSlug_default_properties
    (fun _ len => List.replicate len 'a')
    (fun _ len => List.replicate len 'a') none
    (List.replicate 6 'a') 1 none h
  exact ⟨h, hp.1, hp.2.1, hp.2.2.1, hp.2.2.2.1, hp.2.2.2.2⟩

/-- C4 counterexample: with the default configuration, candidates of the
current target length, and an existence checker that collides exactly on
6-character candidates, the source increments the length already at attempt
5 (half of `maxRetries`, not strictly more) and succeeds at attempt 6, while
the claim rule would only increment at attempt 6 and succeed at attempt 7 —
so the code differs from the claim threshold at an explicit input. -/
theorem generateSlug_half_threshold_cex :
    generateSlug DEFAULT_SLUG_CONFIG (fun _ len => List.replicate len 'a')
        (fun _ len => List.replicate len 'a')
        (some fun _ s => s.length == 6) =
      ⟨true, some (List.replicate 7 'a'), 6, none⟩ ∧
    generateSlugClaim DEFAULT_SLUG_CONFIG (fun _ len => List.replicate len 'a')
        (fun _ len => List.replicate len 'a')
        (some fun _ s => s.length == 6) =
      ⟨true, some (List.replicate 7 'a'), 7, none⟩ ∧
    generateSlug DEFAULT_SLUG_CONFIG (fun _ len => List.replicate len 'a')
        (fun _ len => List.replicate len 'a')
        (some fun _ s => s.length == 6) ≠
      generateSlugClaim DEFAULT_SLUG_CONFIG
        (fun _ len => List.replicate len 'a')
        (fun _ len => List.replicate len 'a')
        (some fun _ s => s.length == 6) := by
  refine ⟨by decide, by decide, ?_⟩
  decide

/-- C4 (amended): a collision on a valid and safe candidate causes the target
length to be incremented (capped at `maxLength`) exactly when the number of
attempts so far is at least `floor(maxRetries / 2)`; below that threshold the
length is left unchanged. -/
theorem generateSlug_collision_step (cfg : SlugCfg)
    (ts rand : Nat → Nat → List Char) (c : Nat → List Char → Bool)
    (fuel attempts len : Nat)
    (hv : isValidSlugFormat (candAt ts rand (attempts + 1) len) cfg = true)
    (hs : isSafeSlug (candAt ts rand (attempts + 1) len) = true)
    (hc : c (attempts + 1) (candAt ts rand (attempts + 1) len) = true) :
    generateSlugAux cfg ts rand (some c) (fuel + 1) attempts len =
      generateSlugAux cfg ts rand (some c) fuel (attempts + 1)
        (if cfg.maxRetries / 2 ≤ attempts + 1 then
          min (len + 1) cfg.maxLength
         else len) := by
  rw [generateSlugAux.eq_def]
  simp only [hv, hs, hc, Bool.not_true, Bool.false_eq_true, if_false, if_true]

/-- Witness for `generateSlug_collision_step` at attempt 5 of the default
configuration, where the length is incremented from 6 to 7. -/
theorem generateSlug_collision_step_witness :
    isValidSlugFormat
        (candAt (fun _ len => List.replicate len 'a')
          (fun _ len => List.replicate len 'a') 5 6)
        DEFAULT_SLUG_CONFIG = true ∧
    isSafeSlug
        (candAt (fun _ len => List.replicate len 'a')
          (fun _ len => List.replicate len 'a') 5 6) = true ∧
    (fun _ _ => true : Nat → List Char → Bool) 5
        (candAt (fun _ len => List.replicate len 'a')
          (fun _ len => List.replicate len 'a') 5 6) = true ∧
    generateSlugAux DEFAULT_SLUG_CONFIG (fun _ len => List.replicate len 'a')
        (fun _ len => List.replicate len 'a') (some fun _ _ => true)
        (3 + 1) 4 6 =
      generateSlugAux DEFAULT_SLUG_CONFIG (fun _ len => List.replicate len 'a')
        (fun _ len => List.replicate len 'a') (some fun _ _ => true) 3 (4 + 1)
        (if DEFAULT_SLUG_CONFIG.maxRetries / 2 ≤ 4 + 1 then
          min (6 + 1) DEFAULT_SLUG_CONFIG.maxLength
         else 6) :=
  ⟨by decide, by decide, rfl,
    generateSlug_collision_step DEFAULT_SLUG_CONFIG
      (fun _ len => List.replicate len 'a')
      (fun _ len => List.replicate len 'a') (fun _ _ => true) 3 4 6
      (by decide) (by decide) rfl⟩

lemma isValidSlugFormat_too_long {s : List Char} {cfg : SlugCfg}
    (h : cfg.maxLength < s.length) : isValidSlugFormat s cfg = false := by
  unfold isValidSlugFormat
  simp [h]

lemma randSuffixLoop_stuck (rnd2 : Nat → Char × Char) :
    ∀ fuel, randSuffixLoop (List.replicate 16 'a') DEFAULT_SLUG_CONFIG 1 rnd2
      fuel [] = none := by
  intro fuel
  induction fuel with
  | zero => simp [randSuffixLoop]
  | succ fuel ih =>
    have hf : isValidSlugFormat
        (List.replicate 16 'a' ++ [(rnd2 fuel).1, (rnd2 fuel).2])
        DEFAULT_SLUG_CONFIG = false := by
      apply isValidSlugFormat_too_long
      simp [DEFAULT_SLUG_CONFIG]
    rw [randSuffixLoop]
    simp only [List.length_nil, Nat.zero_lt_one, if_true, hf,
      Bool.false_and, Bool.false_eq_true, if_false]
    exact ih

/-- C8: `generateSlugSuggestions` does not terminate for every input — for
the valid 16-character base slug `aaaaaaaaaaaaaaaa` and `count = 1`, every
appended suffix exceeds the maximum slug length, so the random-suffix loop
can never add a suggestion and the call never returns, whatever the random
oracles produce and however much fuel the loop is given. -/
theorem generateSlugSuggestions_nonterminating (fuel : Nat)
    (rnd2 : Nat → Char × Char) (rndS : Nat → List Char) :
    generateSlugSuggestions (some (List.replicate 16 'a')) 1
      DEFAULT_SLUG_CONFIG rnd2 rndS fuel = none := by
  unfold generateSlugSuggestions
  have hbase : (!(List.replicate 16 'a').isEmpty &&
      isValidSlugFormat (List.replicate 16 'a') DEFAULT_SLUG_CONFIG) = true :=
    by decide
  have hnum : numericSuffixGo (List.replicate 16 'a') DEFAULT_SLUG_CONFIG 1 9 1
      [] = [] := by decide
  simp only [hbase, if_true, hnum, randSuffixLoop_stuck rnd2 fuel]

lemma generateSlugAux_allTrue (cfg : SlugCfg) (ts rand : Nat → Nat → List Char)
    (c : Nat → List Char → Bool) (hc : ∀ a s, c a s = true) :
    ∀ fuel attempts len,
      (generateSlugAux cfg ts rand (some c) fuel attempts len).success =
        false := by
  intro fuel
  induction fuel with
  | zero => intro attempts len; rfl
  | succ fuel ih =>
    intro attempts len
    rw [generateSlugAux.eq_def]
    simp only []
    split
    · exact ih _ _
    · split
      · exact ih _ _
      · rw [hc]
        simp only [if_true]
        exact ih _ _

/-- C9: a store error inside the short-code existence check is reported as
"code already exists", so when every store lookup fails during slug
generation each attempt is treated as a collision and `generateSlug` ends in
failure — it can never succeed with an unverified short code. -/
theorem shortCodeExists_error_conservative :
    (∀ e : Unit, shortCodeExists (Except.error e) = true) ∧
    ∀ (cfg : SlugCfg) (ts rand : Nat → Nat → List Char)
      (lookup : Nat → List Char → Except Unit (Option Link)),
      (∀ a s, lookup a s = Except.error ()) →
      (generateSlug cfg ts rand
        (some fun a s => shortCodeExists (lookup a s))).success = false := by
  refine ⟨fun e => rfl, ?_⟩
  intro cfg ts rand lookup h
  exact generateSlugAux_allTrue cfg ts rand _
    (fun a s => by rw [h a s]; rfl) cfg.maxRetries 0 cfg.length

/-- Witness for `shortCodeExists_error_conservative` with a concretely
failing store. -/
theorem shortCodeExists_error_conservative_witness :
    shortCodeExists (Except.error ()) = true ∧
    (generateSlug DEFAULT_SLUG_CONFIG (fun _ len => List.replicate len 'a')
      (fun _ len => List.replicate len 'a')
      (some fun a s =>
        shortCodeExists ((fun _ _ => Except.error ()) a s))).success =
      false :=
  ⟨shortCodeExists_error_conservative.1 (),
    shortCodeExists_error_conservative.2 DEFAULT_SLUG_CONFIG
      (fun _ len => List.replicate len 'a')
      (fun _ len => List.replicate len 'a')
      (fun _ _ => Except.error ()) (fun _ _ => rfl)⟩

/-- C6: URL normalization is not idempotent — for the parseable input
`https://example.com/a//` one application strips a single trailing slash
giving `https://example.com/a/`, and a second application strips another,
giving `https://example.com/a`. -/
theorem normalizeUrl_not_idempotent :
    normalizeUrl (lc "https://example.com/a//") =
      lc "https://example.com/a/" ∧
    normalizeUrl (normalizeUrl (lc "https://example.com/a//")) =
      lc "https://example.com/a" ∧
    normalizeUrl (normalizeUrl (lc "https://example.com/a//")) ≠
      normalizeUrl (lc "https://example.com/a//") := by
  refine ⟨by decide, by decide, by decide⟩

/-- C7: with default options, `validateUrl` accepts the IPv6 loopback URL
`https://[::1]/` (and similarly link-local and unique-local literals),
because the WHATWG `hostname` of a bracketed IPv6 literal keeps its
brackets, which none of the `::1` / `fc00:` / `fe80:` checks match. -/
theorem validateUrl_accepts_ipv6_loopback :
    validateUrl (lc "https://[::1]/") {} =
      ⟨true, some (lc "https://[::1]/"), []⟩ ∧
    validateUrl (lc "https://[fe80::1]/") {} =
      ⟨true, some (lc "https://[fe80::1]/"), []⟩ ∧
    validateUrl (lc "https://[fc00::1]/") {} =
      ⟨true, some (lc "https://[fc00::1]/"), []⟩ ∧
    validateUrl (lc "http://localhost/") {} =
      ⟨false, none, [lc "URL 不安全：不允许内网地址或危险域名"]⟩ ∧
    validateUrl (lc "https://10.0.0.1/") {} =
      ⟨false, none, [lc "URL 不安全：不允许内网地址或危险域名"]⟩ := by
  refine ⟨by decide, by decide, by decide, by decide, by decide⟩

/-- C5: when the URL of a create request validates to a normalized form for
which a not-yet-expired link is already stored and no custom slug was
supplied, `createLink` returns that existing link (same id and short code)
and inserts no row; supplying a (valid, available) custom slug opts out of
the reuse and inserts a fresh row. -/
theorem createLink_idempotent_reuse :
    (∀ (cfg : LinkConfig) (env : CreateEnv) (req : CreateLinkRequest)
      (nu : List Char) (ex : Link),
      validateUrl req.originalUrl {} = ⟨true, some nu, []⟩ →
      env.findByUrl nu = Except.ok (some ex) →
      req.customSlug = none →
      isExpired env.now ex = false →
      createLink cfg env req =
        (⟨true, some (linkToInfo cfg ex), none, none⟩, none)) ∧
    (∀ (cfg : LinkConfig) (env : CreateEnv) (req : CreateLinkRequest)
      (nu s code : List Char) (l : Link),
      validateUrl req.originalUrl {} = ⟨true, some nu, []⟩ →
      cfg.enableCustomSlug = true →
      req.customSlug = some s →
      s.isEmpty = false →
      validateCustomSlug s
        { DEFAULT_SLUG_CONFIG with
            minLength := cfg.minSlugLength,
            maxLength := cfg.maxSlugLength } = ⟨true, some code, []⟩ →
      env.codeLookup 0 code = Except.ok none →
      env.insert ⟨nu, code, env.now, 0, computeExpiry cfg env.now req⟩ =
        Except.ok l →
      createLink cfg env req =
        (⟨true, some (linkToInfo cfg l), none, none⟩,
          some ⟨nu, code, env.now, 0, computeExpiry cfg env.now req⟩)) := by
  constructor
  · intro cfg env req nu ex hv hf hcs hexp
    simp [createLink, hv, hf, hcs, hexp, findExistingLink, reqHasCustomSlug]
  · intro cfg env req nu s code l hv hen hcs hne hsv hlk hins
    have hhas : reqHasCustomSlug req = true := by
      simp [reqHasCustomSlug, hcs, hne]
    cases hfb : env.findByUrl nu with
    | error e =>
      simp [createLink, hv, hfb, hhas, hen, hcs, hsv, hlk, hins,
        findExistingLink, shortCodeExists]
    | ok o =>
      cases o with
      | none =>
        simp [createLink, hv, hfb, hhas, hen, hcs, hsv, hlk, hins,
          findExistingLink, shortCodeExists]
      | some ex =>
        simp [createLink, hv, hfb, hhas, hen, hcs, hsv, hlk, hins,
          findExistingLink, shortCodeExists]

/-- Witness for `createLink_idempotent_reuse`: a concrete store with an
existing link for `https://example.com/`, exercising both the reuse path and
the custom-slug opt-out path. -/
theorem createLink_idempotent_reuse_witness :
    createLink DEFAULT_LINK_CONFIG
      ⟨1000,
        fun _ => Except.ok (some ⟨7, lc "https://example.com/",
          lc "abc123", 0, 5, none⟩),
        fun _ _ => Except.ok none,
        fun _ len => List.replicate len 'a',
        fun _ len => List.replicate len 'a',
        fun d => Except.ok ⟨42, d.original_url, d.short_code, d.created_at,
          d.access_count, d.expires_at⟩⟩
      ⟨lc "https://example.com", none, none, none⟩ =
      (⟨true, some (linkToInfo DEFAULT_LINK_CONFIG
        ⟨7, lc "https://example.com/", lc "abc123", 0, 5, none⟩),
        none, none⟩, none) ∧
    createLink DEFAULT_LINK_CONFIG
      ⟨1000,
        fun _ => Except.ok (some ⟨7, lc "https://example.com/",
          lc "abc123", 0, 5, none⟩),
        fun _ _ => Except.ok none,
        fun _ len => List.replicate len 'a',
        fun _ len => List.replicate len 'a',
        fun d => Except.ok ⟨42, d.original_url, d.short_code, d.created_at,
          d.access_count, d.expires_at⟩⟩
      ⟨lc "https://example.com", some (lc "myslug"), none, none⟩ =
      (⟨true, some (linkToInfo DEFAULT_LINK_CONFIG
        ⟨42, lc "https://example.com/", lc "myslug", 1000, 0,
          computeExpiry DEFAULT_LINK_CONFIG 1000
            ⟨lc "https://example.com", some (lc "myslug"), none, none⟩⟩),
        none, none⟩,
        some ⟨lc "https://example.com/", lc "myslug", 1000, 0,
          computeExpiry DEFAULT_LINK_CONFIG 1000
            ⟨lc "https://example.com", some (lc "myslug"), none, none⟩⟩) :=
  ⟨createLink_idempotent_reuse.1 DEFAULT_LINK_CONFIG
      ⟨1000,
        fun _ => Except.ok (some ⟨7, lc "https://example.com/",
          lc "abc123", 0, 5, none⟩),
        fun _ _ => Except.ok none,
        fun _ len => List.replicate len 'a',
        fun _ len => List.replicate len 'a',
        fun d => Except.ok ⟨42, d.original_url, d.short_code, d.created_at,
          d.access_count, d.expires_at⟩⟩
      ⟨lc "https://example.com", none, none, none⟩
      (lc "https://example.com/")
      ⟨7, lc "https://example.com/", lc "abc123", 0, 5, none⟩
      (by decide) rfl rfl rfl,
    createLink_idempotent_reuse.2 DEFAULT_LINK_CONFIG
      ⟨1000,
        fun _ => Except.ok (some ⟨7, lc "https://example.com/",
          lc "abc123", 0, 5, none⟩),
        fun _ _ => Except.ok none,
        fun _ len => List.replicate len 'a',
        fun _ len => List.replicate len 'a',
        fun d => Except.ok ⟨42, d.original_url, d.short_code, d.created_at,
          d.access_count, d.expires_at⟩⟩
      ⟨lc "https://example.com", some (lc "myslug"), none, none⟩
      (lc "https://example.com/") (lc "myslug") (lc "myslug")
      ⟨42, lc "https://example.com/", lc "myslug", 1000, 0,
        computeExpiry DEFAULT_LINK_CONFIG 1000
          ⟨lc "https://example.com", some (lc "myslug"), none, none⟩⟩
      (by decide) rfl rfl rfl (by decide) rfl rfl⟩
